import Mathlib

/-!
Verification of the Tradecraft mock pipeline and dispatch/poll client.

Shallow embedding of `src/frontend/src/agents/pipeline.js` and
`src/frontend/src/services/api.js`. JavaScript numbers are modelled as
rationals (`ℚ`); `Number.prototype.toFixed(d)` followed by `parseFloat`
is modelled as rounding to `d` decimal digits with ties away from zero
for positive values (Mathlib's `round`, which rounds half up, agrees on
the positive values arising here). `Math.random()` results are passed in
as explicit parameters assumed to lie in `[0, 1)`. Free-text fields that
are pure presentation (summary, rationale, reason, notes) and the
artificial UI delays are omitted: no downstream computation reads them.
-/

namespace Tradecraft

/-- `parseFloat(x.toFixed(d))`: round `x` to `d` decimal digits. -/
def roundTo (d : ℕ) (x : ℚ) : ℚ := ((round (x * 10 ^ d) : ℤ) : ℚ) / 10 ^ d

/-- The input event `{headline, ticker, source}`. -/
structure Event where
  headline : String
  ticker : String
  source : String
deriving DecidableEq, Repr

/-- One entry of `TICKER_PROFILES` (and the neutral fallback). -/
structure Profile where
  bias : String
  action : String
  price : ℚ
  stop : ℚ
  tp : ℚ
  sharpe : ℚ
deriving DecidableEq, Repr

/-- The fallback profile returned for unknown tickers. -/
def neutralProfile : Profile :=
  { bias := "NEUTRAL", action := "HOLD", price := 100.00, stop := 95.00, tp := 108.00, sharpe := 0.8 }

/-- `getProfile`: look up `TICKER_PROFILES[ticker.toUpperCase()]`, with the
neutral fallback for unknown keys. -/
def getProfile (ticker : String) : Profile :=
  match ticker.toUpper with
  | "NVDA" => { bias := "BULLISH", action := "LONG",  price := 875.00, stop := 850.00, tp := 920.00, sharpe := 1.8 }
  | "AAPL" => { bias := "BEARISH", action := "SHORT", price := 189.50, stop := 193.00, tp := 182.00, sharpe := 1.4 }
  | "SPY"  => { bias := "BEARISH", action := "SHORT", price := 502.00, stop := 512.00, tp := 488.00, sharpe := 1.1 }
  | "MSFT" => { bias := "BULLISH", action := "LONG",  price := 415.00, stop := 402.00, tp := 435.00, sharpe := 1.6 }
  | "TSLA" => { bias := "BEARISH", action := "SHORT", price := 265.00, stop := 278.00, tp := 248.00, sharpe := 0.9 }
  | "META" => { bias := "BULLISH", action := "LONG",  price := 510.00, stop := 495.00, tp := 535.00, sharpe := 1.7 }
  | _ => neutralProfile

/-- The six keys of `TICKER_PROFILES`. -/
def knownTickers : List String := ["NVDA", "AAPL", "SPY", "MSFT", "TSLA", "META"]

/-- Output of `runResearcher` (free-text `summary` omitted). -/
structure ResearchPayload where
  signal : String
  confidence : ℚ
  sources : List String
  regime : String
  key_risks : List String
deriving DecidableEq, Repr

/-- `buildRisks`. -/
def buildRisks (profile : Profile) : List String :=
  let base := ["Macro regime shift", "Fed policy surprise"]
  if profile.bias = "BULLISH" then base ++ ["Overbought technicals", "Earnings miss risk"]
  else base ++ ["Short squeeze potential", "Sector rotation inflows"]

/-- `runResearcher`; `r` is the `Math.random()` draw, so
`confidence = parseFloat((0.65 + r * 0.28).toFixed(2))`. -/
def runResearcher (event : Event) (r : ℚ) : ResearchPayload :=
  let profile := getProfile event.ticker
  { signal := profile.bias
    confidence := roundTo 2 (0.65 + r * 0.28)
    sources := [event.source, "Macro Desk", "SEC Filings"]
    regime := if profile.bias = "BULLISH" then "RISK_ON" else "RISK_OFF"
    key_risks := buildRisks profile }

/-- Output of `runSignalAgent` (free-text `rationale` omitted). -/
structure SignalPayload where
  action : String
  ticker : String
  size_pct : ℚ
  entry_price : ℚ
  stop_loss : ℚ
  take_profit : ℚ
  backtest_sharpe : ℚ
  expected_return_pct : ℚ
  based_on_signal_id : String
deriving DecidableEq, Repr

/-- `runSignalAgent`. -/
def runSignalAgent (event : Event) (researchPayload : ResearchPayload) : SignalPayload :=
  let profile := getProfile event.ticker
  let confidence := researchPayload.confidence
  let size := roundTo 1 (min (confidence * 12) 8)
  { action := if researchPayload.signal = "BULLISH" then "LONG"
              else if researchPayload.signal = "BEARISH" then "SHORT" else "HOLD"
    ticker := event.ticker.toUpper
    size_pct := size
    entry_price := profile.price
    stop_loss := profile.stop
    take_profit := profile.tp
    backtest_sharpe := profile.sharpe
    expected_return_pct := roundTo 2 ((profile.tp - profile.price) / profile.price * 100)
    based_on_signal_id := "mock-res-001" }

/-- The `risk_metrics` record of a risk payload. -/
structure RiskMetrics where
  position_limit_ok : Bool
  drawdown_ok : Bool
  liquidity_ok : Bool
deriving DecidableEq, Repr

/-- Output of `runRiskManager` (free-text `reason` omitted). -/
structure RiskPayload where
  verdict : String
  veto : Bool
  adjusted_size_pct : Option ℚ
  risk_metrics : RiskMetrics
deriving DecidableEq, Repr

/-- `runRiskManager`: `MAX_POS = 5.0`; veto iff `rawSize > 20` or the
action is `HOLD`. -/
def runRiskManager (signalPayload : SignalPayload) : RiskPayload :=
  let rawSize := signalPayload.size_pct
  let MAX_POS : ℚ := 5.0
  let veto : Bool := decide (20 < rawSize) || decide (signalPayload.action = "HOLD")
  let adjusted : Option ℚ := if veto then none else some (min rawSize MAX_POS)
  let verdict := if veto then "VETOED"
                 else if MAX_POS < rawSize then "APPROVED_WITH_CONDITIONS"
                 else "APPROVED"
  { verdict := verdict
    veto := veto
    adjusted_size_pct := adjusted
    risk_metrics :=
      { position_limit_ok := decide (rawSize ≤ MAX_POS)
        drawdown_ok := true
        liquidity_ok := true } }

/-- The full record `runExecutionAgent` builds on the non-veto path
(free-text `notes` omitted). -/
structure ExecFill where
  strategy : String
  duration_min : ℚ
  child_orders : ℚ
  limit_price : ℚ
  expected_slippage_bps : ℚ
  venue : String
  status : String
deriving DecidableEq, Repr

/-- Output of `runExecutionAgent`: either the early
`{status: 'REJECTED', reason}` object or the full fill record. -/
inductive ExecPayload where
  | rejected (reason : String)
  | fill (f : ExecFill)
deriving DecidableEq, Repr

/-- `runExecutionAgent`; `r` is the `Math.random()` draw used for the
slippage, so `expected_slippage_bps = parseFloat((3.5 + r * 2).toFixed(1))`.
`??` on `adjusted_size_pct` is `Option.getD`. -/
def runExecutionAgent (signalPayload : SignalPayload) (riskPayload : RiskPayload)
    (r : ℚ) : ExecPayload :=
  if riskPayload.veto then .rejected "Vetoed by Risk Manager."
  else
    let effectiveSize := riskPayload.adjusted_size_pct.getD signalPayload.size_pct
    let strategy := if 3 < effectiveSize then "TWAP" else "LIMIT"
    .fill
      { strategy := strategy
        duration_min := 30
        child_orders := 6
        limit_price := signalPayload.entry_price
        expected_slippage_bps := roundTo 1 (3.5 + r * 2)
        venue := "PAPER_EXCHANGE"
        status := "SIMULATED_FILL" }

/-- The `results` map as seen by `runSupervisor`: the subset of stage
payloads produced so far, keyed by stage name. -/
structure Results where
  researcher : Option ResearchPayload
  signal_agent : Option SignalPayload
  risk_manager : Option RiskPayload
  execution_agent : Option ExecPayload
deriving DecidableEq, Repr

/-- `Object.keys(all).length` for the stage map. -/
def Results.keyCount (all : Results) : ℕ :=
  [all.researcher.isSome, all.signal_agent.isSome,
   all.risk_manager.isSome, all.execution_agent.isSome].count true

/-- Output of `runSupervisor`; the `log_id` (current date plus random
4-digit suffix) is passed in as the parameter `logId`. -/
structure SupervisorPayload where
  audit_status : String
  circuit_breaker_triggered : Bool
  human_review_required : Bool
  flags : List String
  compliance_notes : String
  log_id : String
  decision_chain_complete : Bool
  total_messages_audited : ℕ
deriving DecidableEq, Repr

/-- `runSupervisor`. -/
def runSupervisor (all : Results) (logId : String) : SupervisorPayload :=
  let hasResearch := all.researcher.isSome
  let hasRisk := all.risk_manager.isSome
  let chainOk := hasResearch && hasRisk
  { audit_status := if chainOk then "COMPLIANT" else "NON_COMPLIANT"
    circuit_breaker_triggered := false
    human_review_required := match all.risk_manager with
      | some rk => rk.veto
      | none => false
    flags := if chainOk then [] else ["Missing research basis or risk review"]
    compliance_notes := if chainOk then
        "Full decision chain verified. Risk limits honored. No regulatory flags detected."
      else "Incomplete decision chain — manual review required."
    log_id := logId
    decision_chain_complete := chainOk
    total_messages_audited := all.keyCount }

/-- The object returned by `runMockPipeline`: the stage map spread
together with the optional `status: 'complete'` marker and `_vetoed`. -/
structure RunResult where
  researcher : Option ResearchPayload
  signal_agent : Option SignalPayload
  risk_manager : Option RiskPayload
  execution_agent : Option ExecPayload
  supervisor : Option SupervisorPayload
  status : Option String
  _vetoed : Bool
deriving DecidableEq, Repr

/-- `runMockPipeline`: the five-stage sequence with the veto
short-circuit. `r1` is the researcher confidence draw, `r2` the
execution slippage draw, `logId` the supervisor log identifier. The
second component records the `onStep(agentKey, payload-ready, done)`
invocations in order as `(agentKey, done)` pairs (`done` is passed only
for the terminal supervisor call). The artificial delays have no
semantic effect and are not modelled. -/
def runMockPipeline (event : Event) (r1 r2 : ℚ) (logId : String) :
    RunResult × List (String × Bool) :=
  let researchPayload := runResearcher event r1
  let signalPayload := runSignalAgent event researchPayload
  let riskPayload := runRiskManager signalPayload
  if riskPayload.veto then
    let soFar : Results :=
      { researcher := some researchPayload, signal_agent := some signalPayload,
        risk_manager := some riskPayload, execution_agent := none }
    let supervisorPayload := runSupervisor soFar logId
    ({ researcher := some researchPayload, signal_agent := some signalPayload,
       risk_manager := some riskPayload, execution_agent := none,
       supervisor := some supervisorPayload, status := none, _vetoed := true },
     [("researcher", false), ("signal_agent", false), ("risk_manager", false),
      ("supervisor", true)])
  else
    let execPayload := runExecutionAgent signalPayload riskPayload r2
    let full : Results :=
      { researcher := some researchPayload, signal_agent := some signalPayload,
        risk_manager := some riskPayload, execution_agent := some execPayload }
    let supervisorPayload := runSupervisor full logId
    ({ researcher := some researchPayload, signal_agent := some signalPayload,
       risk_manager := some riskPayload, execution_agent := some execPayload,
       supervisor := some supervisorPayload, status := some "complete", _vetoed := false },
     [("researcher", false), ("signal_agent", false), ("risk_manager", false),
      ("execution_agent", false), ("supervisor", true)])

/-- The parsed JSON body fetched by the poll loop. `status` is
`data?.status` (`none` for a body with no status field); `payload`
stands for the rest of the result object. -/
structure PollBody where
  status : Option String
  payload : ℕ
deriving DecidableEq, Repr

/-- Outcome of one `fetch` inside `pollForResult`: the request (or the
`resp.json()` parse) throws, the response is not `resp.ok`, or an `ok`
response with a parsed body. -/
inductive FetchOutcome where
  | fetchError
  | notOk
  | ok (body : PollBody)
deriving DecidableEq, Repr

/-- Result of `pollForResult`: the completed body, or the timeout error. -/
inductive PollResult where
  | success (body : PollBody)
  | timeout
deriving DecidableEq, Repr

/-- The `while (Date.now() < deadline)` loop of `pollForResult`.
`f n` is the outcome of the `n`-th fetch attempt, `dur n` the extra real
time (fetch + parse duration) that attempt consumes beyond the
`sleep(intervalMs)`; `t` is the time elapsed since entry and `n` the
number of attempts made so far. Returns the result together with the
total number of fetch attempts. The loop makes progress only for a
positive interval, which the guard requires. -/
def pollLoop (f : ℕ → FetchOutcome) (dur : ℕ → ℕ) (deadline intervalMs : ℕ) :
    ℕ → ℕ → PollResult × ℕ
  | t, n =>
    if _hguard : t < deadline ∧ 0 < intervalMs then
      match f n with
      | .ok body =>
        if body.status = some "complete" then (.success body, n + 1)
        else pollLoop f dur deadline intervalMs (t + intervalMs + dur n) (n + 1)
      | .fetchError => pollLoop f dur deadline intervalMs (t + intervalMs + dur n) (n + 1)
      | .notOk => pollLoop f dur deadline intervalMs (t + intervalMs + dur n) (n + 1)
    else (.timeout, n)
termination_by t _ => deadline - t
decreasing_by all_goals omega

/-- `pollForResult(runId, {maxWaitMs, intervalMs})`: the deadline is
`maxWaitMs` past entry and the elapsed time starts at zero. -/
def pollForResult (f : ℕ → FetchOutcome) (dur : ℕ → ℕ)
    (maxWaitMs intervalMs : ℕ) : PollResult × ℕ :=
  pollLoop f dur maxWaitMs intervalMs 0 0

/-- The dispatch response as `dispatchPipeline` observes it: the HTTP
status code, and the `message` field of the JSON error body (`none`
when the body is not JSON or has no `message`; `some ""` when the field
is present but empty). -/
structure DispatchResponse where
  status : ℕ
  message : Option String
deriving DecidableEq, Repr

/-- `resp.ok` of the Fetch API: status in the range 200–299. -/
def respOk (status : ℕ) : Bool := decide (200 ≤ status) && decide (status ≤ 299)

/-- `dispatchPipeline`: `now` is `Date.now()` at entry, used for the run
identifier. On a non-ok response the thrown message is
`err.message || ` the generic string — JavaScript `||` falls through to
the generic string when `message` is absent or the empty string. -/
def dispatchPipeline (resp : DispatchResponse) (now : ℕ) : Except String String :=
  let runId := "run-" ++ toString now
  if respOk resp.status then .ok runId
  else .error (match resp.message with
    | some m => if m = "" then "Dispatch failed: " ++ toString resp.status else m
    | none => "Dispatch failed: " ++ toString resp.status)

/-! ### Helper lemmas -/

/-- `Char.ofNat` on a valid scalar below the surrogate range. -/
theorem char_toNat_ofNat {n : ℕ} (h : n < 55296) : (Char.ofNat n).toNat = n := by
  unfold Char.ofNat
  rw [dif_pos (Or.inl h)]
  rfl

/-- ASCII upper-casing of a character is idempotent. -/
theorem charToUpper_idem (c : Char) : c.toUpper.toUpper = c.toUpper := by
  simp only [Char.toUpper]
  split
  · next h =>
    rw [if_neg]
    intro hcon
    rw [char_toNat_ofNat (by omega)] at hcon
    omega
  · rfl

/-- `String.toUpper` is idempotent. -/
theorem stringToUpper_idem (s : String) : s.toUpper.toUpper = s.toUpper := by
  simp only [String.toUpper, String.map_eq, List.map_map]
  have hfun : Char.toUpper ∘ Char.toUpper = Char.toUpper := funext charToUpper_idem
  rw [hfun]

/-- An integer lower bound on the argument bounds `round` from below. -/
theorem int_le_round {m : ℤ} {x : ℚ} (h : (m : ℚ) ≤ x) : m ≤ round x := by
  rw [round_eq]
  exact Int.le_floor.mpr (by linarith)

/-- `round` stays at or below `m` as long as the argument is below the
rounding threshold `m + 1/2`. -/
theorem round_le_int {m : ℤ} {x : ℚ} (h : x < (m : ℚ) + 1 / 2) : round x ≤ m := by
  rw [round_eq]
  have h2 : ⌊x + 1 / 2⌋ < m + 1 := Int.floor_lt.mpr (by push_cast; linarith)
  omega

/-- Scaled integer lower bound for `roundTo`. -/
theorem le_roundTo {d : ℕ} {x : ℚ} {m : ℤ} (h : (m : ℚ) ≤ x * 10 ^ d) :
    (m : ℚ) / 10 ^ d ≤ roundTo d x := by
  unfold roundTo
  have h1 : m ≤ round (x * 10 ^ d) := int_le_round h
  have h10 : (0 : ℚ) < 10 ^ d := by positivity
  gcongr

/-- Scaled integer upper bound for `roundTo`. -/
theorem roundTo_le {d : ℕ} {x : ℚ} {m : ℤ} (h : x * 10 ^ d < (m : ℚ) + 1 / 2) :
    roundTo d x ≤ (m : ℚ) / 10 ^ d := by
  unfold roundTo
  have h1 : round (x * 10 ^ d) ≤ m := round_le_int h
  have h10 : (0 : ℚ) < 10 ^ d := by positivity
  gcongr

/-- Rounding a nonnegative value is nonnegative. -/
theorem roundTo_nonneg {d : ℕ} {x : ℚ} (h : 0 ≤ x) : 0 ≤ roundTo d x := by
  have h0 : ((0 : ℤ) : ℚ) ≤ x * 10 ^ d := by
    push_cast
    exact mul_nonneg h (by positivity)
  have := le_roundTo h0
  simpa using this

/-- `String.toUpper` unfolded to a structural list map, for concrete
evaluation. -/
theorem toUpper_eval (s : String) : s.toUpper = String.mk (s.data.map Char.toUpper) :=
  String.map_eq Char.toUpper s

/-- Unknown uppercased tickers fall through to the neutral profile. -/
theorem getProfile_not_known {t : String} (h : t.toUpper ∉ knownTickers) :
    getProfile t = neutralProfile := by
  unfold getProfile
  split
  all_goals first
    | rfl
    | (next heq => exact absurd (by simp [knownTickers, heq]) h)

/-- Every profile bias is one of the three market biases. -/
theorem getProfile_bias_mem (t : String) :
    (getProfile t).bias = "BULLISH" ∨ (getProfile t).bias = "BEARISH" ∨
      (getProfile t).bias = "NEUTRAL" := by
  unfold getProfile
  split <;> simp [neutralProfile]

/-- The bias is `NEUTRAL` exactly for tickers outside the profile table. -/
theorem getProfile_bias_neutral_iff (t : String) :
    (getProfile t).bias = "NEUTRAL" ↔ t.toUpper ∉ knownTickers := by
  unfold getProfile
  split
  all_goals first
    | (next heq => simp [knownTickers, heq])
    | simp_all [knownTickers, neutralProfile]

/-! ### Claim theorems -/

/-- C1: for every signal payload, the Risk Manager evaluation vetoes iff
`size_pct > 20` or the action is `HOLD`; under a veto the adjusted size
is null and the verdict `VETOED`; otherwise the adjusted size is
`min(size_pct, 5.0)` and the verdict is `APPROVED_WITH_CONDITIONS` for
`size_pct > 5.0`, else `APPROVED`. -/
theorem risk_manager_evaluation (sp : SignalPayload) :
    ((runRiskManager sp).veto = true ↔ (20 < sp.size_pct ∨ sp.action = "HOLD")) ∧
    ((runRiskManager sp).veto = true →
      (runRiskManager sp).adjusted_size_pct = none ∧
      (runRiskManager sp).verdict = "VETOED") ∧
    ((runRiskManager sp).veto = false →
      (runRiskManager sp).adjusted_size_pct = some (min sp.size_pct 5) ∧
      (runRiskManager sp).verdict =
        (if 5 < sp.size_pct then "APPROVED_WITH_CONDITIONS" else "APPROVED")) := by
  have h5 : (5.0 : ℚ) = 5 := by norm_num
  by_cases h20 : 20 < sp.size_pct <;> by_cases hH : sp.action = "HOLD" <;>
    simp [runRiskManager, h20, hH, h5]

/-- C3: for every event and research payload with nonnegative
confidence, the signal payload's size is `round(min(confidence*12, 8), 1)`
and lies in `[0, 8]`; the action maps `BULLISH→LONG`, `BEARISH→SHORT`,
else `HOLD`; entry/stop/target come from the ticker profile; and the
expected return is `round((target-price)/price*100, 2)`. -/
theorem signal_agent_spec (event : Event) (research : ResearchPayload)
    (hc : 0 ≤ research.confidence) :
    (runSignalAgent event research).size_pct = roundTo 1 (min (research.confidence * 12) 8) ∧
    0 ≤ (runSignalAgent event research).size_pct ∧
    (runSignalAgent event research).size_pct ≤ 8 ∧
    (runSignalAgent event research).action =
      (if research.signal = "BULLISH" then "LONG"
       else if research.signal = "BEARISH" then "SHORT" else "HOLD") ∧
    (runSignalAgent event research).entry_price = (getProfile event.ticker).price ∧
    (runSignalAgent event research).stop_loss = (getProfile event.ticker).stop ∧
    (runSignalAgent event research).take_profit = (getProfile event.ticker).tp ∧
    (runSignalAgent event research).expected_return_pct =
      roundTo 2 (((getProfile event.ticker).tp - (getProfile event.ticker).price) /
        (getProfile event.ticker).price * 100) := by
  refine ⟨rfl, ?_, ?_, rfl, rfl, rfl, rfl, rfl⟩
  · exact roundTo_nonneg (le_min (mul_nonneg hc (by norm_num)) (by norm_num))
  · have h8 : min (research.confidence * 12) 8 ≤ 8 := min_le_right _ _
    have hub := roundTo_le (d := 1) (m := 80)
      (x := min (research.confidence * 12) 8) (by push_cast; linarith)
    norm_num at hub
    exact hub

/-- Witness for C3 at the spec's end-to-end scenario: NVDA with
confidence 0.80 gives `size_pct = 8` (since `0.8 * 12 = 9.6` caps to 8)
and action `LONG`. -/
theorem signal_agent_spec_witness :
    (0 : ℚ) ≤ (0.8 : ℚ) ∧
    (runSignalAgent ⟨"NVDA beats earnings", "NVDA", "NASDAQ Filing"⟩
        ⟨"BULLISH", 0.8, [], "RISK_ON", []⟩).size_pct =
      roundTo 1 (min ((0.8 : ℚ) * 12) 8) ∧
    (runSignalAgent ⟨"NVDA beats earnings", "NVDA", "NASDAQ Filing"⟩
        ⟨"BULLISH", 0.8, [], "RISK_ON", []⟩).action = "LONG" := by
  have h := signal_agent_spec ⟨"NVDA beats earnings", "NVDA", "NASDAQ Filing"⟩
    ⟨"BULLISH", 0.8, [], "RISK_ON", []⟩ (by norm_num)
  exact ⟨by norm_num, h.1, by simpa using h.2.2.2.1⟩

/-- C4: profile lookup is case-insensitive
(`getProfile t = getProfile t.toUpperCase()`), and any ticker whose
uppercased form is not one of the six known keys gets the fixed neutral
profile. -/
theorem getProfile_case_insensitive (t : String) :
    getProfile t = getProfile t.toUpper ∧
    (t.toUpper ∉ knownTickers → getProfile t = neutralProfile) := by
  constructor
  · unfold getProfile
    rw [stringToUpper_idem]
  · exact fun h => getProfile_not_known h

/-- Witness for C4 at the unknown lowercase ticker `"xyz"`. -/
theorem getProfile_case_insensitive_witness :
    getProfile "xyz" = getProfile ("xyz".toUpper) ∧
    getProfile "xyz" = neutralProfile := by
  refine ⟨(getProfile_case_insensitive "xyz").1,
    (getProfile_case_insensitive "xyz").2 ?_⟩
  rw [toUpper_eval]
  decide

/-- A concrete vetoed run: the unknown ticker `"XYZ"` resolves to the
neutral profile, so the signal action is `HOLD` and Risk vetoes. -/
theorem xyz_run_vetoes :
    (runRiskManager (runSignalAgent ⟨"h", "XYZ", "s"⟩
      (runResearcher ⟨"h", "XYZ", "s"⟩ 0))).veto = true := by
  have hprofile : getProfile "XYZ" = neutralProfile := by
    apply getProfile_not_known
    rw [toUpper_eval]
    decide
  simp [runRiskManager, runSignalAgent, runResearcher, hprofile, neutralProfile]

/-- C2: in every vetoed mock run, the Run Result has no
`execution_agent` payload, the Supervisor still runs — its payload is in
the result and the `onStep` callback is invoked for it — and, the
researcher and risk payloads being present, its `audit_status` is
`COMPLIANT`. -/
theorem veto_run_supervisor_audit (event : Event) (r1 r2 : ℚ) (logId : String)
    (hveto : (runRiskManager (runSignalAgent event (runResearcher event r1))).veto = true) :
    (runMockPipeline event r1 r2 logId).1.execution_agent = none ∧
    (runMockPipeline event r1 r2 logId).1.researcher.isSome = true ∧
    (runMockPipeline event r1 r2 logId).1.risk_manager.isSome = true ∧
    ("supervisor", true) ∈ (runMockPipeline event r1 r2 logId).2 ∧
    (∃ sup, (runMockPipeline event r1 r2 logId).1.supervisor = some sup ∧
      sup.audit_status = "COMPLIANT") := by
  simp [runMockPipeline, hveto, runSupervisor]

/-- Witness for C2 at the unknown ticker `"XYZ"`, whose `HOLD` action
forces the veto. -/
theorem veto_run_supervisor_audit_witness :
    (runRiskManager (runSignalAgent ⟨"h", "XYZ", "s"⟩
        (runResearcher ⟨"h", "XYZ", "s"⟩ 0))).veto = true ∧
    (runMockPipeline ⟨"h", "XYZ", "s"⟩ 0 0 "TRD-0").1.execution_agent = none ∧
    ("supervisor", true) ∈ (runMockPipeline ⟨"h", "XYZ", "s"⟩ 0 0 "TRD-0").2 := by
  have h := veto_run_supervisor_audit ⟨"h", "XYZ", "s"⟩ 0 0 "TRD-0" xyz_run_vetoes
  exact ⟨xyz_run_vetoes, h.1, h.2.2.2.1⟩

/-- C9: every mock run's result carries `_vetoed` equal to the Risk
payload's veto; the non-vetoed path additionally sets
`status: 'complete'` while the vetoed path sets no status field. -/
theorem mock_pipeline_vetoed_status (event : Event) (r1 r2 : ℚ) (logId : String) :
    (runMockPipeline event r1 r2 logId).1._vetoed =
      (runRiskManager (runSignalAgent event (runResearcher event r1))).veto ∧
    ((runMockPipeline event r1 r2 logId).1._vetoed = false →
      (runMockPipeline event r1 r2 logId).1.status = some "complete") ∧
    ((runMockPipeline event r1 r2 logId).1._vetoed = true →
      (runMockPipeline event r1 r2 logId).1.status = none) := by
  by_cases h : (runRiskManager (runSignalAgent event (runResearcher event r1))).veto <;>
    simp [runMockPipeline, h]

/-- C10: inside the mock pipeline the signal size never exceeds 8, so
the `rawSize > 20` disjunct of the veto is vacuous: the Risk stage
vetoes iff the action is `HOLD`, iff the research bias is `NEUTRAL`,
iff the event's uppercased ticker is not a known profile key. -/
theorem pipeline_veto_iff_unknown_ticker (event : Event) (r1 : ℚ) :
    (runSignalAgent event (runResearcher event r1)).size_pct ≤ 8 ∧
    ¬(20 < (runSignalAgent event (runResearcher event r1)).size_pct) ∧
    ((runRiskManager (runSignalAgent event (runResearcher event r1))).veto = true ↔
      (runSignalAgent event (runResearcher event r1)).action = "HOLD") ∧
    ((runSignalAgent event (runResearcher event r1)).action = "HOLD" ↔
      (runResearcher event r1).signal = "NEUTRAL") ∧
    ((runResearcher event r1).signal = "NEUTRAL" ↔
      event.ticker.toUpper ∉ knownTickers) := by
  have hsize : (runSignalAgent event (runResearcher event r1)).size_pct ≤ 8 := by
    have h8 : min ((runResearcher event r1).confidence * 12) 8 ≤ 8 := min_le_right _ _
    have hub := roundTo_le (d := 1) (m := 80)
      (x := min ((runResearcher event r1).confidence * 12) 8) (by push_cast; linarith)
    norm_num at hub
    exact hub
  have h20 : ¬(20 < (runSignalAgent event (runResearcher event r1)).size_pct) := by
    intro hcon
    linarith
  refine ⟨hsize, h20, ?_, ?_, ?_⟩
  · simp [runRiskManager, h20]
  · rcases getProfile_bias_mem event.ticker with hb | hb | hb <;>
      simp [runSignalAgent, runResearcher, hb]
  · have : (runResearcher event r1).signal = (getProfile event.ticker).bias := rfl
    rw [this]
    exact getProfile_bias_neutral_iff event.ticker

/-- Witness for C10 at the known ticker `"NVDA"` with `r1 = 0`. -/
theorem pipeline_veto_iff_unknown_ticker_witness :
    (runSignalAgent ⟨"h", "NVDA", "s"⟩ (runResearcher ⟨"h", "NVDA", "s"⟩ 0)).size_pct ≤ 8 ∧
    ((runRiskManager (runSignalAgent ⟨"h", "NVDA", "s"⟩
        (runResearcher ⟨"h", "NVDA", "s"⟩ 0))).veto = true ↔
      (runSignalAgent ⟨"h", "NVDA", "s"⟩
        (runResearcher ⟨"h", "NVDA", "s"⟩ 0)).action = "HOLD") := by
  have h := pipeline_veto_iff_unknown_ticker ⟨"h", "NVDA", "s"⟩ 0
  exact ⟨h.1, h.2.2.1⟩

/-- A concrete approved signal used to exercise the Execution agent:
size 4 stays under the 5% cap, so Risk approves with `adjusted = 4`. -/
def sampleSignal : SignalPayload :=
  { action := "LONG", ticker := "NVDA", size_pct := 4, entry_price := 875,
    stop_loss := 850, take_profit := 920, backtest_sharpe := 1.8,
    expected_return_pct := 5.14, based_on_signal_id := "mock-res-001" }

/-- Counterexample to C7 as stated: with the random draw
`r = 199/200 ∈ [0, 1)`, the raw slippage `3.5 + 2r = 5.49` rounds to one
decimal as `5.5`, which is outside the claimed half-open interval
`[3.5, 5.5)`. -/
theorem execution_agent_slippage_cex :
    (0 : ℚ) ≤ 199 / 200 ∧ (199 / 200 : ℚ) < 1 ∧
    runExecutionAgent sampleSignal (runRiskManager sampleSignal) (199 / 200) =
      .fill { strategy := "TWAP", duration_min := 30, child_orders := 6,
              limit_price := 875, expected_slippage_bps := 5.5,
              venue := "PAPER_EXCHANGE", status := "SIMULATED_FILL" } ∧
    ¬((5.5 : ℚ) < 5.5) := by
  refine ⟨by norm_num, by norm_num, ?_, lt_irrefl _⟩
  have hrisk : runRiskManager sampleSignal =
      { verdict := "APPROVED", veto := false, adjusted_size_pct := some 4,
        risk_metrics := { position_limit_ok := true, drawdown_ok := true,
                          liquidity_ok := true } } := by
    simp [runRiskManager, sampleSignal]
    norm_num
  rw [hrisk]
  simp only [runExecutionAgent]
  norm_num [sampleSignal, roundTo, round_eq]

/-- C7 (amended: the rounded slippage lies in the closed interval
`[3.5, 5.5]`): a vetoed risk payload makes the Execution agent return
exactly the rejection object; otherwise it emits a fill whose strategy
is `TWAP` when the effective size (adjusted size, falling back to the
signal size) exceeds 3 and `LIMIT` otherwise, with duration 30, six
child orders, slippage in `[3.5, 5.5]`, and status `SIMULATED_FILL`. -/
theorem execution_agent_spec (sp : SignalPayload) (rk : RiskPayload) (r : ℚ)
    (h0 : 0 ≤ r) (h1 : r < 1) :
    (rk.veto = true → runExecutionAgent sp rk r = .rejected "Vetoed by Risk Manager.") ∧
    (rk.veto = false → ∃ fill,
      runExecutionAgent sp rk r = .fill fill ∧
      fill.strategy = (if 3 < rk.adjusted_size_pct.getD sp.size_pct then "TWAP" else "LIMIT") ∧
      fill.duration_min = 30 ∧
      fill.child_orders = 6 ∧
      fill.limit_price = sp.entry_price ∧
      (3.5 : ℚ) ≤ fill.expected_slippage_bps ∧
      fill.expected_slippage_bps ≤ (5.5 : ℚ) ∧
      fill.status = "SIMULATED_FILL") := by
  constructor
  · intro h
    simp [runExecutionAgent, h]
  · intro h
    refine ⟨{ strategy := if 3 < rk.adjusted_size_pct.getD sp.size_pct then "TWAP" else "LIMIT",
              duration_min := 30, child_orders := 6, limit_price := sp.entry_price,
              expected_slippage_bps := roundTo 1 (3.5 + r * 2),
              venue := "PAPER_EXCHANGE", status := "SIMULATED_FILL" },
            by simp [runExecutionAgent, h], rfl, rfl, rfl, rfl, ?_, ?_, rfl⟩
    · have hlb := le_roundTo (d := 1) (m := 35) (x := 3.5 + r * 2)
        (by push_cast; linarith)
      show (3.5 : ℚ) ≤ roundTo 1 (3.5 + r * 2)
      norm_num at hlb ⊢
      exact hlb
    · have hub := roundTo_le (d := 1) (m := 55) (x := 3.5 + r * 2)
        (by push_cast; linarith)
      show roundTo 1 (3.5 + r * 2) ≤ (5.5 : ℚ)
      norm_num at hub ⊢
      exact hub

/-- Witness for C7: at `r = 0` on the approved sample signal the agent
emits a TWAP fill with slippage `3.5`. -/
theorem execution_agent_spec_witness :
    (0 : ℚ) ≤ 0 ∧ (0 : ℚ) < 1 ∧
    ∃ fill, runExecutionAgent sampleSignal (runRiskManager sampleSignal) 0 = .fill fill ∧
      fill.strategy = (if 3 < (runRiskManager sampleSignal).adjusted_size_pct.getD
          sampleSignal.size_pct then "TWAP" else "LIMIT") ∧
      (3.5 : ℚ) ≤ fill.expected_slippage_bps ∧
      fill.expected_slippage_bps ≤ (5.5 : ℚ) := by
  have hveto : (runRiskManager sampleSignal).veto = false := by
    simp [runRiskManager, sampleSignal]
    norm_num
  have h := (execution_agent_spec sampleSignal (runRiskManager sampleSignal) 0
    (by norm_num) (by norm_num)).2 hveto
  obtain ⟨fill, hfill, hstrat, _, _, _, hlb, hub, _⟩ := h
  exact ⟨by norm_num, by norm_num, fill, hfill, hstrat, hlb, hub⟩

/-- Counterexample to C8 as stated: on a 500 response whose body has a
`message` field that is present but empty, the thrown message is the
generic `Dispatch failed: 500`, not the body's `message` — JavaScript
`err.message || fallback` treats the empty string as absent. -/
theorem dispatch_message_cex :
    dispatchPipeline ⟨500, some ""⟩ 0 = .error "Dispatch failed: 500" ∧
    ("Dispatch failed: 500" : String) ≠ "" := by
  constructor
  · rfl
  · decide

/-- C8 (amended: the body's `message` is used only when present and
non-empty): every 2xx response returns the time-derived run identifier;
every non-2xx response produces exactly one error carrying the body's
non-empty `message` when there is one, and the generic
`Dispatch failed: <status>` otherwise. -/
theorem dispatch_spec (resp : DispatchResponse) (now : ℕ) :
    (200 ≤ resp.status ∧ resp.status ≤ 299 →
      dispatchPipeline resp now = .ok ("run-" ++ toString now)) ∧
    (¬(200 ≤ resp.status ∧ resp.status ≤ 299) →
      (∀ m, resp.message = some m → m ≠ "" → dispatchPipeline resp now = .error m) ∧
      (resp.message = none ∨ resp.message = some "" →
        dispatchPipeline resp now = .error ("Dispatch failed: " ++ toString resp.status))) := by
  constructor
  · intro h
    simp [dispatchPipeline, respOk, h.1, h.2]
  · intro h
    have hok : respOk resp.status = false := by
      simp [respOk]
      omega
    constructor
    · intro m hm hne
      simp [dispatchPipeline, hok, hm, hne]
    · rintro (hm | hm) <;> simp [dispatchPipeline, hok, hm]

/-- Witness for C8: a 204 response yields the run id; a 404 response
with a non-empty message surfaces that message. -/
theorem dispatch_spec_witness :
    dispatchPipeline ⟨204, none⟩ 7 = .ok ("run-" ++ toString 7) ∧
    dispatchPipeline ⟨404, some "Not Found"⟩ 7 = .error "Not Found" := by
  constructor
  · exact (dispatch_spec ⟨204, none⟩ 7).1 ⟨by norm_num, by norm_num⟩
  · exact ((dispatch_spec ⟨404, some "Not Found"⟩ 7).2 (by norm_num)).1
      "Not Found" rfl (by decide)

/-- A successful poll result is always a body whose status is
`complete`, returned by the fetch attempt just made. -/
theorem pollLoop_success_spec (f : ℕ → FetchOutcome) (dur : ℕ → ℕ)
    (D I : ℕ) (b : PollBody) :
    ∀ k t n m, D - t ≤ k → pollLoop f dur D I t n = (.success b, m) →
      b.status = some "complete" ∧ f (m - 1) = .ok b ∧ n < m := by
  intro k
  induction k with
  | zero =>
    intro t n m hk h
    rw [pollLoop] at h
    rw [dif_neg (by omega)] at h
    simp at h
  | succ k IH =>
    intro t n m hk h
    rw [pollLoop] at h
    by_cases hg : t < D ∧ 0 < I
    · rw [dif_pos hg] at h
      split at h
      · next body heq =>
        split at h
        · next hs =>
          simp only [Prod.mk.injEq, PollResult.success.injEq] at h
          obtain ⟨hb, hm⟩ := h
          subst hb
          subst hm
          exact ⟨hs, by simpa using heq, by omega⟩
        · next hs =>
            have hrec := IH (t + I + dur n) (n + 1) m (by omega) h
            exact ⟨hrec.1, hrec.2.1, by omega⟩
      · have hrec := IH (t + I + dur n) (n + 1) m (by omega) h
        exact ⟨hrec.1, hrec.2.1, by omega⟩
      · have hrec := IH (t + I + dur n) (n + 1) m (by omega) h
        exact ⟨hrec.1, hrec.2.1, by omega⟩
    · rw [dif_neg hg] at h
      simp at h

/-- If no fetch ever yields a complete body, the loop can only time
out. -/
theorem pollLoop_timeout_spec (f : ℕ → FetchOutcome) (dur : ℕ → ℕ)
    (D I : ℕ)
    (hnone : ∀ n b, f n = .ok b → b.status ≠ some "complete") :
    ∀ k t n, D - t ≤ k → (pollLoop f dur D I t n).1 = .timeout := by
  intro k
  induction k with
  | zero =>
    intro t n hk
    rw [pollLoop]
    rw [dif_neg (by omega)]
  | succ k IH =>
    intro t n hk
    rw [pollLoop]
    by_cases hg : t < D ∧ 0 < I
    · rw [dif_pos hg]
      split
      · next body heq =>
        rw [if_neg (hnone n body heq)]
        exact IH _ _ (by omega)
      · exact IH _ _ (by omega)
      · exact IH _ _ (by omega)
    · rw [dif_neg hg]

/-- Each loop iteration advances the clock by at least the interval, so
the attempt counter never exceeds `n + ⌈(D - t) / I⌉`. -/
theorem pollLoop_attempts_le (f : ℕ → FetchOutcome) (dur : ℕ → ℕ)
    (D I : ℕ) (hI : 0 < I) :
    ∀ k t n, D - t ≤ k → (pollLoop f dur D I t n).2 ≤ n + (D - t + I - 1) / I := by
  intro k
  induction k with
  | zero =>
    intro t n hk
    rw [pollLoop]
    rw [dif_neg (by omega)]
    exact Nat.le_add_right n _
  | succ k IH =>
    intro t n hk
    rw [pollLoop]
    by_cases hg : t < D ∧ 0 < I
    · have hone : 1 ≤ (D - t + I - 1) / I := by
        rw [Nat.le_div_iff_mul_le hI]
        omega
      have hstep : ∀ e, (pollLoop f dur D I (t + I + e) (n + 1)).2 ≤
          n + (D - t + I - 1) / I := by
        intro e
        have hrec := IH (t + I + e) (n + 1) (by omega)
        refine hrec.trans ?_
        by_cases hR : D - t ≤ I + e
        · have hz : D - (t + I + e) = 0 := by omega
          rw [hz]
          have : (0 + I - 1) / I = 0 := Nat.div_eq_of_lt (by omega)
          omega
        · have hz : D - (t + I + e) + I - 1 = D - t - e - 1 := by omega
          rw [hz]
          have hmono : (D - t - e - 1) / I ≤ (D - t - 1) / I :=
            Nat.div_le_div_right (by omega)
          have hsplit : (D - t + I - 1) / I = (D - t - 1) / I + 1 := by
            have h1 : D - t + I - 1 = (D - t - 1) + I := by omega
            rw [h1, Nat.add_div_right _ hI]
          omega
      rw [dif_pos hg]
      split
      · next body heq =>
        split
        · next hs => simpa using hone
        · next hs => exact hstep (dur n)
      · exact hstep (dur n)
      · exact hstep (dur n)
    · rw [dif_neg hg]
      exact Nat.le_add_right n _

/-- C5: the poll client returns successfully only with a fetched body
whose status is `complete` (that body is the return value); fetch
errors, non-ok responses, and incomplete bodies are all retried, so if
no fetch ever produces a complete body the call ends in the timeout
error — a body with any other status is never returned. -/
theorem poll_success_characterization (f : ℕ → FetchOutcome) (dur : ℕ → ℕ)
    (maxWaitMs intervalMs : ℕ) :
    (∀ b m, pollForResult f dur maxWaitMs intervalMs = (.success b, m) →
      b.status = some "complete" ∧ f (m - 1) = .ok b) ∧
    ((∀ n b, f n = .ok b → b.status ≠ some "complete") →
      (pollForResult f dur maxWaitMs intervalMs).1 = .timeout) := by
  constructor
  · intro b m h
    have := pollLoop_success_spec f dur maxWaitMs intervalMs b
      (maxWaitMs - 0) 0 0 m le_rfl h
    exact ⟨this.1, this.2.1⟩
  · intro hnone
    exact pollLoop_timeout_spec f dur maxWaitMs intervalMs hnone
      (maxWaitMs - 0) 0 0 le_rfl

/-- C6: with wait budget `D` and a positive interval `I`, the poll loop
performs at most `⌈D / I⌉ = (D + I - 1) / I` fetch attempts. -/
theorem poll_attempts_bounded (f : ℕ → FetchOutcome) (dur : ℕ → ℕ)
    (maxWaitMs intervalMs : ℕ) (hI : 0 < intervalMs) :
    (pollForResult f dur maxWaitMs intervalMs).2 ≤
      (maxWaitMs + intervalMs - 1) / intervalMs := by
  have := pollLoop_attempts_le f dur maxWaitMs intervalMs hI
    (maxWaitMs - 0) 0 0 le_rfl
  simpa using this

/-- Witness for C1 at the approved sample signal (size 4, action
`LONG`): no veto, adjusted size `min(4, 5)`. -/
theorem risk_manager_evaluation_witness :
    (runRiskManager sampleSignal).veto = false ∧
    (runRiskManager sampleSignal).adjusted_size_pct = some (min sampleSignal.size_pct 5) ∧
    (runRiskManager sampleSignal).verdict = "APPROVED" := by
  have hv : (runRiskManager sampleSignal).veto = false := by
    simp [runRiskManager, sampleSignal]
    norm_num
  have h := (risk_manager_evaluation sampleSignal).2.2 hv
  refine ⟨hv, h.1, ?_⟩
  rw [h.2, if_neg (by simp [sampleSignal]; norm_num)]

/-- Witness for C9 at the vetoed `"XYZ"` run: `_vetoed` is true and no
status field is set. -/
theorem mock_pipeline_vetoed_status_witness :
    (runMockPipeline ⟨"h", "XYZ", "s"⟩ 0 0 "TRD-0").1._vetoed = true ∧
    (runMockPipeline ⟨"h", "XYZ", "s"⟩ 0 0 "TRD-0").1.status = none := by
  have h := mock_pipeline_vetoed_status ⟨"h", "XYZ", "s"⟩ 0 0 "TRD-0"
  have hv : (runMockPipeline ⟨"h", "XYZ", "s"⟩ 0 0 "TRD-0").1._vetoed = true :=
    h.1.trans xyz_run_vetoes
  exact ⟨hv, h.2.2 hv⟩

/-- Witness for C5: a fetch source that never produces an ok body makes
the poll call time out. -/
theorem poll_success_characterization_witness :
    (pollForResult (fun _ => .fetchError) (fun _ => 0) 10 3).1 = .timeout :=
  (poll_success_characterization (fun _ => .fetchError) (fun _ => 0) 10 3).2
    (fun _ _ h => FetchOutcome.noConfusion h)

/-- Witness for C6 at budget 10 and interval 3: at most
`⌈10/3⌉ = 4` fetch attempts. -/
theorem poll_attempts_bounded_witness :
    (0 : ℕ) < 3 ∧
    (pollForResult (fun _ => .notOk) (fun _ => 0) 10 3).2 ≤ (10 + 3 - 1) / 3 :=
  ⟨by norm_num, poll_attempts_bounded (fun _ => .notOk) (fun _ => 0) 10 3 (by norm_num)⟩

end Tradecraft
